import Mathlib

/-!
Shallow embedding of the BHAP proposal tracker's core logic
(`src/bhap.go` and `src/bhap_page.go`), and theorems checking the
specification's claims against it.

Conventions:
- Go's string-typed `status` enum (bhap.go:11-30) is embedded as a closed
  inductive type with one constructor per declared constant.
- Go `int` arithmetic is embedded as `Int`; Go integer division truncates
  toward zero (`Int.tdiv`) and panics on a zero divisor, which is embedded
  as the `none` case of an `Option` result.
- The request-handler fragments of `serveBHAPPage` that the claims are
  about (mode selection, vote tally, the viewer's own-vote validation) are
  embedded as pure functions of the values the handler has loaded.
-/

/-- The `status` enum from bhap.go:11-30: one constructor per declared
constant (`draftStatus` = "Draft", ..., `aprilFoolsStatus` = "April Fools"). -/
inductive status where
  | draftStatus
  | deferredStatus
  | rejectedStatus
  | discussionStatus
  | withdrawnStatus
  | acceptedStatus
  | replacedStatus
  | aprilFoolsStatus
  deriving DecidableEq, Repr, Fintype

/-- The `optionsMode` enum from bhap_page.go:18-28. -/
inductive optionsMode where
  | notLoggedIn
  | draftNotAuthor
  | draftAuthor
  | discussionAuthor
  | discussionNoVote
  | discussionVoted
  | finalized
  deriving DecidableEq, Repr, Fintype

/-- A vote record as used by `serveBHAPPage`: only its `Value` field is read
(bhap_page.go:146, 149, 161, 163). The value is compared against the status
constants `acceptedStatus` and `rejectedStatus`. -/
structure vote where
  Value : status
  deriving DecidableEq, Repr

/-- The `bhap` record from bhap.go:36-45. Datastore keys and timestamps are
embedded as plain integers; they are opaque to the claims. -/
structure bhap where
  ID : Int
  Title : String
  LastModified : Int
  Author : Int
  Status : status
  CreatedDate : Int
  Content : String
  deriving DecidableEq, Repr

/-- The mode-selection cascade of `serveBHAPPage` (bhap_page.go:119-140):
`isAuthenticated` embeds `userKey != nil`, `isAuthor` embeds
`userKey.Equal(loadedBHAP.Author)`, `hasVoted` embeds
`usersVoteKey != nil`. -/
def determineViewMode (s : status) (isAuthenticated isAuthor hasVoted : Bool) :
    optionsMode :=
  if !isAuthenticated then
    .notLoggedIn
  else if s = .draftStatus then
    if isAuthor then .draftAuthor else .draftNotAuthor
  else if s = .discussionStatus then
    if isAuthor then .discussionAuthor
    else if !hasVoted then .discussionNoVote else .discussionVoted
  else
    .finalized

/-- The vote-counting loop of `serveBHAPPage` (bhap_page.go:143-151):
returns `(acceptedCount, rejectedCount)`. A vote whose value is neither
`acceptedStatus` nor `rejectedStatus` falls through the `if`/`else if`
without incrementing either counter. -/
def voteBreakdown : List vote → Int × Int
  | [] => (0, 0)
  | v :: rest =>
    let c := voteBreakdown rest
    if v.Value = .acceptedStatus then (c.1 + 1, c.2)
    else if v.Value = .rejectedStatus then (c.1, c.2 + 1)
    else c

/-- The results of the tally section of `serveBHAPPage`: the three counts
(bhap_page.go:143-152) and the three percentage fields of `bhapPageFiller`
(bhap_page.go:186-188). -/
structure tallyResult where
  acceptedCount : Int
  rejectedCount : Int
  undecidedCount : Int
  PercentAccepted : Int
  PercentRejected : Int
  PercentUndecided : Int
  deriving DecidableEq, Repr

/-- The tally computation of `serveBHAPPage`:
`undecidedCount = userCount - (acceptedCount + rejectedCount) - 1`
(bhap_page.go:152) and
`Percent* = (count / (userCount - 1)) * 100` (bhap_page.go:186-188), where
`/` is Go integer division: it truncates toward zero and panics when
`userCount - 1 == 0`. The panic is embedded as `none`. -/
def tally (allVotes : List vote) (userCount : Int) : Option tallyResult :=
  let acceptedCount := (voteBreakdown allVotes).1
  let rejectedCount := (voteBreakdown allVotes).2
  let undecidedCount := userCount - (acceptedCount + rejectedCount) - 1
  if userCount - 1 = 0 then
    none
  else
    some { acceptedCount := acceptedCount
           rejectedCount := rejectedCount
           undecidedCount := undecidedCount
           PercentAccepted := acceptedCount.tdiv (userCount - 1) * 100
           PercentRejected := rejectedCount.tdiv (userCount - 1) * 100
           PercentUndecided := undecidedCount.tdiv (userCount - 1) * 100 }

/-- Sum of the three counts of a tally result. -/
def countSum (t : tallyResult) : Int :=
  t.acceptedCount + t.rejectedCount + t.undecidedCount

/-- Modelled from the spec: `isEditable` is called at bhap_page.go:180 but
its definition is not among the source files under src/. Spec section 4.1:
"Editability (`isEditable`) is a derived boolean: true only for `Draft`
status ... false for all others." -/
def isEditable (s : status) : Bool :=
  s = .draftStatus

/-- Errors the `serveBHAPPage` handler can hit after loading succeeds:
the explicit "Unknown vote type" internal error (bhap_page.go:166-169) and
the divide-by-zero panic in the percentage computation (bhap_page.go:186-188). -/
inductive pageError where
  | unknownVoteType
  | divideByZero
  deriving DecidableEq, Repr

/-- The `selectedVote` computation of `serveBHAPPage` (bhap_page.go:159-171):
empty string when the viewer has no vote; "ACCEPT" / "REJECTED" for the two
valid values; otherwise the handler fails with "Unknown vote type". -/
def selectedVoteString (usersVote : Option vote) : Except pageError String :=
  match usersVote with
  | none => .ok ""
  | some v =>
    if v.Value = .acceptedStatus then .ok "ACCEPT"
    else if v.Value = .rejectedStatus then .ok "REJECTED"
    else .error .unknownVoteType

/-- The tail of `serveBHAPPage` after all loads succeed (bhap_page.go:119-191),
in source order: mode selection (119-140), vote breakdown (143-152), the
viewer's own-vote validation (159-171), then the filler with the percentage
divisions (173-189). The own-vote check runs before any division, so its
error wins when both would fire. -/
def serveBHAPPageOutcome (s : status) (isAuthenticated isAuthor : Bool)
    (usersVote : Option vote) (allVotes : List vote) (userCount : Int) :
    Except pageError (optionsMode × String × tallyResult × Bool) :=
  let mode := determineViewMode s isAuthenticated isAuthor usersVote.isSome
  match selectedVoteString usersVote with
  | .error e => .error e
  | .ok sv =>
    match tally allVotes userCount with
    | none => .error .divideByZero
    | some t => .ok (mode, sv, t, isEditable s)

/-- `nextID` (bhap.go:66-83): the datastore query `Order("-ID").Limit(1)` is
embedded as sorting the stored records by descending `ID` and taking the
head; the result is `head.ID + 1`, or `0` when the store is empty. -/
def nextID (db : List bhap) : Int :=
  match List.insertionSort (fun a b => b.ID ≤ a.ID) db with
  | [] => 0
  | b :: _ => b.ID + 1

/-- `allBHAPs` (bhap.go:86-96): the datastore query `Order("ID").GetAll` is
embedded as sorting the stored records by ascending `ID`. -/
def allBHAPs (db : List bhap) : List bhap :=
  List.insertionSort (fun a b => a.ID ≤ b.ID) db

instance : IsTotal bhap (fun a b => a.ID ≤ b.ID) :=
  ⟨fun a b => Int.le_total a.ID b.ID⟩

instance : IsTrans bhap (fun a b => a.ID ≤ b.ID) :=
  ⟨fun _ _ _ h1 h2 => le_trans h1 h2⟩

instance : IsTotal bhap (fun a b => b.ID ≤ a.ID) :=
  ⟨fun a b => Int.le_total b.ID a.ID⟩

instance : IsTrans bhap (fun a b => b.ID ≤ a.ID) :=
  ⟨fun _ _ _ h1 h2 => le_trans h2 h1⟩

/-- C2: for every input tuple the mode selection is total and lands in the
seven-element mode enum; unauthenticated viewers get `notLoggedIn` whatever
the status; for authenticated viewers the status decides next, then
authorship, then vote-existence, with `finalized` for every non-Draft,
non-Discussion status. -/
theorem determineViewMode_total :
    (∀ (s : status) (ia hv : Bool),
      determineViewMode s false ia hv = .notLoggedIn) ∧
    (∀ hv : Bool, determineViewMode .draftStatus true true hv = .draftAuthor) ∧
    (∀ hv : Bool,
      determineViewMode .draftStatus true false hv = .draftNotAuthor) ∧
    (∀ hv : Bool,
      determineViewMode .discussionStatus true true hv = .discussionAuthor) ∧
    determineViewMode .discussionStatus true false false = .discussionNoVote ∧
    determineViewMode .discussionStatus true false true = .discussionVoted ∧
    (∀ (ia hv : Bool),
      determineViewMode .deferredStatus true ia hv = .finalized ∧
      determineViewMode .rejectedStatus true ia hv = .finalized ∧
      determineViewMode .withdrawnStatus true ia hv = .finalized ∧
      determineViewMode .acceptedStatus true ia hv = .finalized ∧
      determineViewMode .replacedStatus true ia hv = .finalized ∧
      determineViewMode .aprilFoolsStatus true ia hv = .finalized) ∧
    (∀ (s : status) (auth ia hv : Bool),
      determineViewMode s auth ia hv ∈
        [optionsMode.notLoggedIn, .draftNotAuthor, .draftAuthor,
         .discussionAuthor, .discussionNoVote, .discussionVoted,
         .finalized]) := by
  decide

/-- C7: `isEditable` holds exactly on the `Draft` status and on none of the
seven other statuses. -/
theorem isEditable_iff_draft :
    ∀ s : status, isEditable s = true ↔ s = .draftStatus := by
  intro s; cases s <;> decide

/-- C1: the concrete Discussion scenario — 5 registered users, votes
`[Accepted, Accepted, Rejected]` — produces counts 2/1/1 as the claim says,
but percentages 0/0/0, because `(2 / 4) * 100` under Go integer division is
`0`, not the claimed 50/25/25. -/
theorem tally_discussion_scenario_eval :
    tally [⟨.acceptedStatus⟩, ⟨.acceptedStatus⟩, ⟨.rejectedStatus⟩] 5 =
      some { acceptedCount := 2, rejectedCount := 1, undecidedCount := 1,
             PercentAccepted := 0, PercentRejected := 0,
             PercentUndecided := 0 } := by
  decide

/-- C3: with a single registered user (`userCount = 1`) the tally divides by
`userCount - 1 = 0`, i.e. it panics (embedded as `none`); no
`NoEligibleVoters` error value exists anywhere in the code. -/
theorem tally_single_user_div_by_zero :
    ∀ allVotes : List vote, tally allVotes 1 = none := by
  intro allVotes
  simp [tally]

/-- C4 counterexample: the vote list `[Deferred]` contains a value outside
`{Accepted, Rejected}`, yet the tally does not fail: it returns counts
0/0/4 (with 5 registered users), the invalid vote counting toward neither
accepted nor rejected. No `InvalidVoteValue` error value exists in the code. -/
theorem tally_invalid_vote_no_failure :
    tally [⟨.deferredStatus⟩] 5 =
      some { acceptedCount := 0, rejectedCount := 0, undecidedCount := 4,
             PercentAccepted := 0, PercentRejected := 0,
             PercentUndecided := 100 } := by
  decide

/-- C4 (amended): a vote whose value is outside `{Accepted, Rejected}` is
silently dropped by the counting loop — removing it from the vote list does
not change the tally at all, and in particular no error is raised. -/
theorem tally_skips_invalid_vote :
    ∀ (v : vote) (allVotes : List vote) (userCount : Int),
      v.Value ≠ .acceptedStatus → v.Value ≠ .rejectedStatus →
      tally (v :: allVotes) userCount = tally allVotes userCount := by
  intro v allVotes userCount h1 h2
  simp [tally, voteBreakdown, h1, h2]

/-- Concrete instance of the amended C4 statement. -/
theorem tally_skips_invalid_vote_witness :
    (vote.mk .deferredStatus).Value ≠ .acceptedStatus ∧
    (vote.mk .deferredStatus).Value ≠ .rejectedStatus ∧
    tally [⟨.deferredStatus⟩] 5 = tally [] 5 :=
  ⟨by decide, by decide,
    tally_skips_invalid_vote ⟨.deferredStatus⟩ [] 5 (by decide) (by decide)⟩

/-- C5: for every vote list and `userCount > 1`, the three counts sum to
`userCount - 1`; this holds by construction of `undecidedCount`
(bhap_page.go:152). -/
theorem tally_counts_sum :
    ∀ (allVotes : List vote) (userCount : Int), 1 < userCount →
      (tally allVotes userCount).map countSum = some (userCount - 1) := by
  intro allVotes userCount h
  have hne : userCount - 1 ≠ 0 := by omega
  simp only [tally, hne, if_false, Option.map_some', countSum, Option.some.injEq]
  ring

/-- Concrete instance of C5. -/
theorem tally_counts_sum_witness :
    (1 : Int) < 3 ∧
    (tally [⟨.acceptedStatus⟩] 3).map countSum = some (3 - 1) :=
  ⟨by decide, tally_counts_sum [⟨.acceptedStatus⟩] 3 (by decide)⟩

/-- C6 counterexample: with 2 registered users and 2 Accepted votes, the
computed `undecidedCount` is `-1`; the tally succeeds and returns the
negative value (and a negative percentage) — no integrity error is raised. -/
theorem tally_negative_undecided_eval :
    tally [⟨.acceptedStatus⟩, ⟨.acceptedStatus⟩] 2 =
      some { acceptedCount := 2, rejectedCount := 0, undecidedCount := -1,
             PercentAccepted := 200, PercentRejected := 0,
             PercentUndecided := -100 } := by
  decide

/-- C6 (amended): whenever more votes are cast than `userCount - 1`, the
tally still succeeds and its `undecidedCount` is the (negative) value
`userCount - (accepted + rejected) - 1`, passed through without a clamp or
an error. -/
theorem tally_negative_undecided_silent :
    ∀ (allVotes : List vote) (userCount : Int),
      userCount - 1 ≠ 0 →
      userCount - 1 <
        (voteBreakdown allVotes).1 + (voteBreakdown allVotes).2 →
      (tally allVotes userCount).map tallyResult.undecidedCount =
        some (userCount -
          ((voteBreakdown allVotes).1 + (voteBreakdown allVotes).2) - 1) ∧
      userCount -
        ((voteBreakdown allVotes).1 + (voteBreakdown allVotes).2) - 1 < 0 := by
  intro allVotes userCount hne hlt
  constructor
  · simp [tally, hne]
  · omega

/-- Concrete instance of the amended C6 statement. -/
theorem tally_negative_undecided_silent_witness :
    (2 : Int) - 1 ≠ 0 ∧
    (2 : Int) - 1 <
      (voteBreakdown [⟨.acceptedStatus⟩, ⟨.acceptedStatus⟩]).1 +
        (voteBreakdown [⟨.acceptedStatus⟩, ⟨.acceptedStatus⟩]).2 ∧
    ((tally [⟨.acceptedStatus⟩, ⟨.acceptedStatus⟩] 2).map
        tallyResult.undecidedCount =
      some (2 -
        ((voteBreakdown [⟨.acceptedStatus⟩, ⟨.acceptedStatus⟩]).1 +
          (voteBreakdown [⟨.acceptedStatus⟩, ⟨.acceptedStatus⟩]).2) - 1) ∧
      2 - ((voteBreakdown [⟨.acceptedStatus⟩, ⟨.acceptedStatus⟩]).1 +
          (voteBreakdown [⟨.acceptedStatus⟩, ⟨.acceptedStatus⟩]).2) - 1 < 0) :=
  ⟨by decide, by decide,
    tally_negative_undecided_silent [⟨.acceptedStatus⟩, ⟨.acceptedStatus⟩] 2
      (by decide) (by decide)⟩

/-- C9: if the viewer's own vote record exists but holds a value outside
`{Accepted, Rejected}`, the handler fails with the "Unknown vote type"
internal error (bhap_page.go:166-169) no matter what the status, the other
votes, or the user count are — the check runs before the filler (and its
divisions) is built. -/
theorem unknown_own_vote_type_fails :
    ∀ (s : status) (isAuthenticated isAuthor : Bool) (v : vote)
      (allVotes : List vote) (userCount : Int),
      v.Value ≠ .acceptedStatus → v.Value ≠ .rejectedStatus →
      serveBHAPPageOutcome s isAuthenticated isAuthor (some v) allVotes
        userCount = .error .unknownVoteType := by
  intro s ia author v allVotes n h1 h2
  simp [serveBHAPPageOutcome, selectedVoteString, h1, h2]

/-- Concrete instance of C9. -/
theorem unknown_own_vote_type_fails_witness :
    (vote.mk .withdrawnStatus).Value ≠ .acceptedStatus ∧
    (vote.mk .withdrawnStatus).Value ≠ .rejectedStatus ∧
    serveBHAPPageOutcome .discussionStatus true false
      (some ⟨.withdrawnStatus⟩) [] 5 = .error .unknownVoteType :=
  ⟨by decide, by decide,
    unknown_own_vote_type_fails .discussionStatus true false
      ⟨.withdrawnStatus⟩ [] 5 (by decide) (by decide)⟩

/-- C8: `nextID` returns `0` on an empty store, and whenever the stored IDs
have maximum `m`, it returns `m + 1`. -/
theorem nextID_spec :
    nextID [] = 0 ∧
    ∀ (db : List bhap) (m : Int),
      (db.map bhap.ID).maximum = some m → nextID db = m + 1 := by
  constructor
  · rfl
  · intro db m hm
    have hmem : m ∈ db.map bhap.ID := List.maximum_mem hm
    obtain ⟨b0, hb0, hid⟩ := List.mem_map.mp hmem
    have hperm : List.Perm
        (List.insertionSort (fun a b => b.ID ≤ a.ID) db) db :=
      List.perm_insertionSort _ db
    have hsorted : List.Sorted (fun a b => b.ID ≤ a.ID)
        (List.insertionSort (fun a b => b.ID ≤ a.ID) db) :=
      List.sorted_insertionSort _ db
    cases hl : List.insertionSort (fun a b => b.ID ≤ a.ID) db with
    | nil =>
      exfalso
      have : b0 ∈ List.insertionSort (fun a b => b.ID ≤ a.ID) db :=
        hperm.mem_iff.mpr hb0
      rw [hl] at this
      exact List.not_mem_nil b0 this
    | cons hd tl =>
      rw [hl] at hsorted hperm
      have hhd_mem : hd ∈ db := hperm.mem_iff.mp (List.mem_cons_self hd tl)
      have hhd_le : hd.ID ≤ m :=
        List.le_maximum_of_mem (List.mem_map_of_mem bhap.ID hhd_mem) hm
      have hb0_mem : b0 ∈ hd :: tl := hperm.mem_iff.mpr hb0
      have hm_le : m ≤ hd.ID := by
        rcases List.mem_cons.mp hb0_mem with h | h
        · rw [← hid, h]
        · rw [← hid]
          exact List.rel_of_sorted_cons hsorted b0 h
      have : hd.ID = m := le_antisymm hhd_le hm_le
      simp [nextID, hl, this]

/-- Concrete instance of C8 at a two-record store with maximum ID 2. -/
theorem nextID_spec_witness :
    ((([⟨0, "", 0, 0, .draftStatus, 0, ""⟩,
        ⟨2, "", 0, 0, .discussionStatus, 0, ""⟩] : List bhap).map
        bhap.ID).maximum = some 2) ∧
    nextID [⟨0, "", 0, 0, .draftStatus, 0, ""⟩,
            ⟨2, "", 0, 0, .discussionStatus, 0, ""⟩] = 2 + 1 :=
  ⟨by rfl,
    nextID_spec.2
      [⟨0, "", 0, 0, .draftStatus, 0, ""⟩,
       ⟨2, "", 0, 0, .discussionStatus, 0, ""⟩] 2 (by rfl)⟩

/-- C10: `allBHAPs` returns a permutation of the stored records (every
proposal, nothing else), sorted in ascending order of `ID`, and returns the
empty list on an empty store. -/
theorem allBHAPs_sorted_and_complete :
    (∀ db : List bhap,
      List.Perm (allBHAPs db) db ∧
      List.Sorted (fun a b => a.ID ≤ b.ID) (allBHAPs db)) ∧
    allBHAPs [] = [] :=
  ⟨fun db => ⟨List.perm_insertionSort _ db, List.sorted_insertionSort _ db⟩,
    rfl⟩
